import Mathlib

/-!
Verification development for the arqueos_robot repository.

The repository drives a legacy accounting application (SICAL) from a message
queue.  The development below is a shallow embedding of the code under
`src/arqueo_tasks.py` and `src/arqueo_task_consumer.py`:

* Python strings are modelled as `List Char`;
* the polymorphic JSON-ish values that travel through the payloads
  (booleans, ints, floats, strings, None) are modelled by `PyVal`, with
  floats modelled as rationals (the repository only manipulates short
  decimal amounts, never exercises binary-float rounding);
* the UI side effects of the fill phase are reified as a trace of
  `FillAction`s, and the external legacy application is modelled by an
  environment record (`LegacyEnv`) giving the outcome of each external
  interaction (window opening, duplicate query, validate, print);
* wall-clock fields of the result (`init_time`, `end_time`, `duration`)
  are not modelled.
-/

attribute [local semireducible] Rat.add

/-- Model of a dynamically typed Python value as it appears in the message
payloads handled by the robot. Floats are modelled as rationals. -/
inductive PyVal where
  | pyBool (b : Bool)
  | pyInt (n : Int)
  | pyFloat (q : Rat)
  | pyStr (s : List Char)
  | pyNone
  deriving DecidableEq, Repr

/-- Python truthiness (`bool(value)`) for the modelled values. -/
def PyVal.truthy : PyVal → Bool
  | .pyBool b => b
  | .pyInt n => n != 0
  | .pyFloat q => q != 0
  | .pyStr s => s != []
  | .pyNone => false

/-- Python `value == "s"` where the right operand is a string literal:
true only when `value` is a string with the same characters. -/
def pyEqStr (v : PyVal) (s : List Char) : Bool :=
  match v with
  | .pyStr t => t = s
  | _ => false

/-- Python `value == True`: `True == True`, and numeric `1 == True`;
strings never equal `True`. -/
def pyEqTrue (v : PyVal) : Bool :=
  match v with
  | .pyBool b => b
  | .pyInt n => n = 1
  | .pyFloat q => q = 1
  | _ => false

/-- The whitespace characters removed by Python `str.strip()` (the ASCII
subset, which is all this codebase can encounter). -/
def pyIsSpace (c : Char) : Bool :=
  c = ' ' || c = '\t' || c = '\n' || c = '\r' || c = '\x0b' || c = '\x0c'

/-- Python `str.lstrip()`. -/
def pyLStrip (s : List Char) : List Char := s.dropWhile pyIsSpace

/-- Python `str.rstrip()`. -/
def pyRStrip (s : List Char) : List Char := (s.reverse.dropWhile pyIsSpace).reverse

/-- Python `str.strip()`: removes leading and trailing whitespace. -/
def pyStrip (s : List Char) : List Char := pyRStrip (pyLStrip s)

/-- Python `str.lower()` (ASCII). -/
def pyLower (s : List Char) : List Char := s.map Char.toLower

/-- Python `s.replace(",", ".")`. -/
def commaToDot (s : List Char) : List Char := s.map fun c => if c = ',' then '.' else c

/-- Python `s.replace(".", ",")`. -/
def dotToComma (s : List Char) : List Char := s.map fun c => if c = '.' then ',' else c

/-- Decimal digits of a natural number, most significant first. -/
def natDigits (m : Nat) : List Char := Nat.toDigits 10 m

/-- Python `str(n)` for an integer `n`. -/
def intRepr (n : Int) : List Char :=
  if n < 0 then '-' :: natDigits n.natAbs else natDigits n.natAbs

/-- Drops trailing `'0'` characters but keeps at least one digit. -/
def stripTrailingZeros (s : List Char) : List Char :=
  match s.reverse.dropWhile (· = '0') with
  | [] => ['0']
  | t => t.reverse

/-- Models CPython `str(float)` on float values that are exact short
decimals (the only floats this repository produces: amounts such as
`5000.0` or `1.5`).  A rational whose denominator divides a power of ten is
printed as a minimal decimal with at least one fractional digit, matching
`str(5000.0) = "5000.0"`.  Other rationals (unreachable from decimal float
literals) fall back to a `num/den` rendering. -/
def decimalRepr (q : Rat) : List Char :=
  let sign : List Char := if q < 0 then ['-'] else []
  let n := q.num.natAbs
  let d := q.den
  match (List.range 40).find? (fun k => 10 ^ k % d = 0) with
  | some k =>
    let scaled := n * (10 ^ k / d)
    let ip := natDigits (scaled / 10 ^ k)
    if k = 0 then sign ++ ip ++ ['.', '0']
    else
      let fr := natDigits (scaled % 10 ^ k)
      let padded := List.replicate (k - fr.length) '0' ++ fr
      sign ++ ip ++ ['.'] ++ stripTrailingZeros padded
  | none => sign ++ natDigits n ++ ['/'] ++ natDigits d

/-- Python `str(value)` for the modelled values. -/
def pyStrOf : PyVal → List Char
  | .pyBool true => "True".toList
  | .pyBool false => "False".toList
  | .pyInt n => intRepr n
  | .pyFloat q => decimalRepr q
  | .pyStr s => s
  | .pyNone => "None".toList

/-- Numeric value of a list of decimal digits; `none` on an empty list or a
non-digit character (so `float`/`int` raise in those cases). -/
def digitsVal (s : List Char) : Option Nat :=
  match s with
  | [] => none
  | _ =>
    s.foldl
      (fun acc c =>
        acc.bind fun a => if c.isDigit then some (a * 10 + (c.toNat - 48)) else none)
      (some 0)

/-- Python `int(s)` on the string read back from the records counter:
an optional `-` sign followed by decimal digits.  `none` models a raised
`ValueError`. -/
def parseInt (s : List Char) : Option Int :=
  match s with
  | '-' :: t => (digitsVal t).map fun m => -(m : Int)
  | '+' :: t => (digitsVal t).map fun m => (m : Int)
  | t => (digitsVal t).map fun m => (m : Int)

/-- Python `float(s)` restricted to plain decimal notation
(`[+-]?digits[.digits]`, either side of the point possibly empty but not
both), which is the only shape this repository feeds it.  `none` models a
raised `ValueError`. -/
def parseDecimal (s : List Char) : Option Rat :=
  let core : List Char → Option Rat := fun t =>
    match t.span (fun c => c ≠ '.') with
    | (ip, []) => (digitsVal ip).map (fun m => mkRat (m : Int) 1)
    | (ip, _ :: fp) =>
      if ip = [] && fp = [] then none
      else
        (if ip = [] then some 0 else digitsVal ip).bind fun i =>
          (if fp = [] then some 0 else digitsVal fp).bind fun f =>
            if fp.all Char.isDigit then
              some (mkRat ((i * 10 ^ fp.length + f : Nat) : Int) (10 ^ fp.length))
            else none
  match s with
  | '-' :: t => (core t).map (fun q => -q)
  | '+' :: t => core t
  | t => core t

/-- The finalization suffix constant `FINALIZE_SUFFIX = '_FIN'` of
`arqueo_tasks.py`. -/
def FINALIZE_SUFFIX : List Char := "_FIN".toList

/-- Embedding of `check_finalize_flag` (arqueo_tasks.py lines 150-162):
if the text is truthy and ends with `_FIN`, return the text with the suffix
sliced off (`texto[:-4]`) and `.strip()`-ed, paired with `True`; otherwise
return the text unchanged paired with `False`. -/
def check_finalize_flag (texto : List Char) : List Char × Bool :=
  if texto ≠ [] ∧ FINALIZE_SUFFIX <:+ texto then
    (pyStrip (texto.take (texto.length - FINALIZE_SUFFIX.length)), true)
  else (texto, false)

/-- Embedding of `clean_value` (arqueo_tasks.py lines 528-541). -/
def clean_value (value : PyVal) : PyVal :=
  match value with
  | .pyBool b => .pyBool b
  | .pyStr s =>
    if pyLower s = "false".toList then .pyBool false
    else if pyLower s = "true".toList then .pyBool true
    else .pyStr (pyLower s)
  | .pyInt n => .pyStr (intRepr n)
  | v => .pyBool v.truthy

/-- Value in the `partidas_cuentaPG` table: either a single ledger code or
a structured pair (ledger code, secondary code), as for key `'45002'`. -/
inductive Cuenta where
  | single (c : List Char)
  | pair (c sub : List Char)
  deriving DecidableEq, Repr

/-- First element of a `Cuenta` value (callers needing only the primary
ledger code take the first element of the pair). -/
def Cuenta.primary : Cuenta → List Char
  | .single c => c
  | .pair c _ => c

/-- Embedding of the static table `partidas_cuentaPG`
(arqueo_tasks.py lines 32-51), in source order. -/
def partidas_cuentaPG : List (List Char × Cuenta) :=
  [ ("130".toList, .single "727".toList),
    ("300".toList, .single "740".toList),
    ("302".toList, .single "740".toList),
    ("32900".toList, .single "740".toList),
    ("32901".toList, .single "740".toList),
    ("32905".toList, .single "740".toList),
    ("325".toList, .single "740".toList),
    ("332".toList, .single "742".toList),
    ("389".toList, .single "775".toList),
    ("399".toList, .single "777".toList),
    ("42000".toList, .single "7501".toList),
    ("45000".toList, .single "7501".toList),
    ("45002".toList, .pair "9411".toList "24000014".toList),
    ("290".toList, .single "733".toList),
    ("549".toList, .single "776".toList),
    ("20104".toList, .single "561".toList),
    ("30012".toList, .single "554".toList),
    ("30016".toList, .single "554".toList) ]

/-- Embedding of `partidas_cuentaPG.get(economica, '000')`
(arqueo_tasks.py line 582): dictionary lookup with the `'000'` sentinel
default. -/
def cuentaFor (economica : List Char) : Cuenta :=
  (partidas_cuentaPG.lookup economica).getD (.single "000".toList)

/-- Python `int(float)`: truncation toward zero, modelled on rationals. -/
def truncRat (q : Rat) : Int :=
  if 0 ≤ q.num then ((q.num.natAbs / q.den : Nat) : Int)
  else -((q.num.natAbs / q.den : Nat) : Int)

/-- The `OperationStatus` enum of `arqueo_tasks.py` (lines 165-171). -/
inductive OperationStatus where
  | PENDING
  | IN_PROGRESS
  | COMPLETED
  | INCOMPLETED
  | FAILED
  | P_DUPLICATED
  deriving DecidableEq, Repr

/-- The `OperationResult` dataclass (arqueo_tasks.py lines 197-208).
Wall-clock fields (`init_time`, `end_time`, `duration`) are not modelled.
`total_operacion` and `suma_aplicaciones` hold `PyVal` because the code
assigns a *string* to `total_operacion` (line 869) although the dataclass
declares `Optional[float]`; the model keeps the dynamic value to make that
observable. -/
structure OperationResultM where
  status : OperationStatus
  error : Option (List Char) := none
  num_operacion : Option (List Char) := none
  total_operacion : Option PyVal := none
  suma_aplicaciones : Option PyVal := none
  sical_is_open : Bool := false
  similiar_records_encountered : Int := 0
  deriving DecidableEq, Repr

/-- A raw line item (one element of `detalle['aplicaciones']`) as consumed
by `create_aplicaciones`; `none` models an absent key, whose Python
default is applied inside the function. -/
structure RawAplicacion where
  economica : Option PyVal := none
  importe : Option PyVal := none
  contraido : Option PyVal := none
  proyecto : Option PyVal := none
  year : Option (List Char) := none
  base_imponible : Option PyVal := none
  tipo : Option PyVal := none
  cuenta_pgp : Option (List Char) := none
  deriving DecidableEq, Repr

/-- A transformed line item as produced by `create_aplicaciones`
(arqueo_tasks.py lines 584-595). -/
structure Aplicacion where
  partida : List Char
  importe : List Char
  contraido : PyVal
  proyecto : PyVal
  year : List Char
  cuenta : Cuenta
  otro : Bool
  base_imponible : PyVal
  tipo : PyVal
  cuenta_pgp : List Char
  deriving DecidableEq, Repr

/-- Embedding of `create_aplicaciones` (arqueo_tasks.py lines 543-597).
Per raw item: `economica = str(item.get('economica',''))`;
`importe = item.get('importe', 0.0)` converted via
`str(importe).replace('.', ',')` when it is a Python `int`/`float`
(which includes `bool`, a subclass of `int`) and via `str(importe)`
otherwise; `contraido = item.get('contraido', False)` kept as-is for
`bool` and `int`, truncated to `int` for `float`, and coerced with
`bool()` otherwise; `cuenta = partidas_cuentaPG.get(economica, '000')`. -/
def create_aplicaciones (aplicaciones_data : List RawAplicacion) : List Aplicacion :=
  aplicaciones_data.map fun a =>
    let economica := pyStrOf (a.economica.getD (.pyStr []))
    let importe :=
      match a.importe.getD (.pyFloat 0) with
      | .pyBool b => dotToComma (pyStrOf (.pyBool b))
      | .pyInt n => dotToComma (pyStrOf (.pyInt n))
      | .pyFloat q => dotToComma (pyStrOf (.pyFloat q))
      | v => pyStrOf v
    let contraido := a.contraido.getD (.pyBool false)
    let contraido_value :=
      match contraido with
      | .pyBool b => PyVal.pyBool b
      | .pyInt n => PyVal.pyInt n
      | .pyFloat q => PyVal.pyInt (truncRat q)
      | v => PyVal.pyBool v.truthy
    { partida := economica,
      importe := importe,
      contraido := contraido_value,
      proyecto := a.proyecto.getD (.pyBool false),
      year := a.year.getD [],
      cuenta := cuentaFor economica,
      otro := false,
      base_imponible := a.base_imponible.getD (.pyFloat 0),
      tipo := a.tipo.getD (.pyFloat 0),
      cuenta_pgp := a.cuenta_pgp.getD [] }

/-- The raw `detalle` payload as consumed by `create_arqueo_data`.
`texto_sical` is modelled as the list of the optional `tcargo` values of
its elements (each element is a dict that may lack `tcargo`). -/
structure RawDetalle where
  fecha : PyVal := .pyNone
  caja : PyVal := .pyNone
  expediente : Option PyVal := none
  tercero : PyVal := .pyNone
  naturaleza : Option PyVal := none
  texto_sical : List (Option (List Char)) := []
  aplicaciones : List RawAplicacion := []
  deriving DecidableEq, Repr

/-- The canonical record produced by `create_arqueo_data`
(arqueo_tasks.py lines 514-526).  `descuentos`, `aux_data` and `metadata`
are passed through opaquely by the source and are not modelled. -/
structure DatosArqueo where
  fecha : PyVal
  caja : PyVal
  expediente : PyVal
  tercero : PyVal
  naturaleza : PyVal
  resumen : List Char
  finalizar_operacion : Bool
  aplicaciones : List Aplicacion
  deriving DecidableEq, Repr

/-- Embedding of `create_arqueo_data` (arqueo_tasks.py lines 500-526):
`texto_sical[0].get('tcargo','') if texto_sical else ''` feeds
`check_finalize_flag`, defaults are `'rbt-apunte-arqueo'` for
`expediente` and `'4'` for `naturaleza`. -/
def create_arqueo_data (d : RawDetalle) : DatosArqueo :=
  let texto_operacion :=
    match d.texto_sical with
    | [] => []
    | t :: _ => t.getD []
  let p := check_finalize_flag texto_operacion
  { fecha := d.fecha,
    caja := d.caja,
    expediente := d.expediente.getD (.pyStr "rbt-apunte-arqueo".toList),
    tercero := d.tercero,
    naturaleza := d.naturaleza.getD (.pyStr "4".toList),
    resumen := p.1,
    finalizar_operacion := p.2,
    aplicaciones := create_aplicaciones d.aplicaciones }

/-- One reified UI interaction of the fill phase
(`fill_main_panel_data`, arqueo_tasks.py lines 768-865).  Header-field
entry is not reified; only the per-line-item interactions the claims are
about. -/
inductive FillAction where
  | clickNew
  | enterPartida (p : List Char)
  | skipTabs3
  | tab1
  | tabToContraido
  | newContraidoKeys
  | typeContraido (v : PyVal)
  | enterImporte (s : List Char)
  | pressEnter
  | commit
  | logOtherNature
  deriving DecidableEq, Repr

/-- UI actions performed for one positive line item inside the loop of
`fill_main_panel_data` (arqueo_tasks.py lines 782-865), branching on the
operation nature exactly as the source does: the first branch tests
`datos_arqueo.get('naturaleza') == '4'`, the `elif` tests the same value
against `'5'`, anything else only logs. -/
def fillItemActions (naturaleza : PyVal) (a : Aplicacion) : List FillAction :=
  [.clickNew] ++
  (if pyEqStr naturaleza "4".toList then
    [.enterPartida a.partida] ++
    (if a.contraido.truthy then []
     else [.skipTabs3, .enterImporte a.importe, .pressEnter, .commit])
  else if pyEqStr naturaleza "5".toList then
    [.enterPartida a.partida] ++
    (if a.contraido.truthy then
      [.tabToContraido] ++
      (if pyEqTrue (clean_value a.contraido) then [.newContraidoKeys]
       else [.typeContraido a.contraido])
     else [.tab1]) ++
    [.skipTabs3, .enterImporte a.importe, .pressEnter, .commit]
  else [.logOtherNature])

/-- Amount accumulated into `suma_aplicaciones` for one positive line item
(`v` is the parsed amount): nature `'4'` accumulates only when `contraido`
is falsy (the accumulation sits inside that branch, lines 811-813), nature
`'5'` always accumulates (lines 860-862), other natures never do. -/
def itemSum (naturaleza : PyVal) (a : Aplicacion) (v : Rat) : Rat :=
  if pyEqStr naturaleza "4".toList then (if a.contraido.truthy then 0 else v)
  else if pyEqStr naturaleza "5".toList then v
  else 0

/-- The line-item loop of `fill_main_panel_data` (lines 768-865): each
item's amount string is parsed with `float(importe.replace(',', '.'))`
(a malformed amount raises, modelled by `none`), items with a positive
amount are processed, the rest are skipped.  Returns the reified action
trace and the final `suma_aplicaciones`. -/
def fillLoop (naturaleza : PyVal) : List Aplicacion → Option (List FillAction × Rat)
  | [] => some ([], 0)
  | a :: rest =>
    match parseDecimal (commaToDot a.importe) with
    | none => none
    | some v =>
      match fillLoop naturaleza rest with
      | none => none
      | some p =>
        if v > 0 then some (fillItemActions naturaleza a ++ p.1, itemSum naturaleza a v + p.2)
        else some p

/-- Embedding of `fill_main_panel_data` (arqueo_tasks.py lines 719-879).
Header-field entry (lines 726-760) always succeeds in the model; the
fallible part is the line-item loop.  On success the displayed total read
from the window (`displayedTotal`) is stored into `total_operacion` as a
*string* after `.replace(",", ".")` (lines 867-869) and the accumulated
float goes to `suma_aplicaciones`; any exception is caught and turns the
result into `FAILED` with a `Validation error:` message (lines 873-877). -/
def fill_main_panel_data (displayedTotal : List Char) (datos : DatosArqueo)
    (r : OperationResultM) : List FillAction × OperationResultM :=
  match fillLoop datos.naturaleza datos.aplicaciones with
  | none =>
    ([], { r with status := .FAILED,
                  error := some ("Validation error: malformed importe".toList) })
  | some p =>
    (p.1, { r with total_operacion := some (.pyStr (commaToDot displayedTotal)),
                   suma_aplicaciones := some (.pyFloat p.2) })

/-- Outcome of the duplicate query (`Consultar` click) observed by
`_check_for_duplicates`: either the legacy system shows its `Error` modal
(meaning zero matching records, lines 372-387), or records were found, in
which case the `num_registros` field may be present with some string value
or absent (lines 345-353). -/
inductive DupOutcome where
  | noRecords
  | found (countField : Option (List Char))
  deriving DecidableEq, Repr

/-- Environment modelling every interaction with the external legacy
application during one operation. `dupUiOk` collapses the availability of
the consulta/filters windows and of all filter fields (lines 244-301):
when false, `_check_for_duplicates` fails before reaching the query. -/
structure LegacyEnv where
  dupUiOk : Bool := true
  dupOutcome : DupOutcome := .noRecords
  sicalOpens : Bool := true
  displayedTotal : List Char := []
  validateRes : Except (List Char) (List Char) := .ok []
  printRes : Except (List Char) Unit := .ok ()
  deriving Repr

/-- Result of `_check_for_duplicates` together with the query trace:
`queriedTotal = some t` exactly when the `Consultar` query was executed,
with `t` the total placed in both amount-filter bounds. -/
structure DupCheck where
  result : OperationResultM
  queriedTotal : Option Rat
  deriving Repr

/-- Python `sum(float(app['importe'].replace(',', '.')) for app in apps)`
(arqueo_tasks.py lines 308-311): the sum of *all* amounts, `none` when any
amount string fails to parse (the generator raises). -/
def sumImportes (apps : List Aplicacion) : Option Rat :=
  apps.foldr
    (fun a acc =>
      (parseDecimal (commaToDot a.importe)).bind fun v => acc.map fun s => v + s)
    (some 0)

/-- Error message built at arqueo_tasks.py line 356. -/
def dupFoundMsg (n : Int) : List Char :=
  "Possible duplicate operation found, similar records: ".toList ++ intRepr n

/-- Embedding of `_check_for_duplicates` (arqueo_tasks.py lines 227-398).
Control flow from the source: any missing UI surface before the query
returns `FAILED`; an empty/falsy `aplicaciones` list returns `FAILED`
with `'Total aplicaciones calculado == 0'` *without* querying (lines
307-316); otherwise the total of all amounts is computed, placed in the
amount filters, and the query runs.  A raised exception anywhere (bad
amount string, bad records counter) is caught at lines 389-396 and yields
`FAILED`.  On records found, the count is `int(num_registros)` when the
counter element has a truthy value, `0` when its value is empty, `1` when
the element is absent, and the status becomes `P_DUPLICATED`; on the error
modal (no records) the status is left unchanged. -/
def check_for_duplicates (env : LegacyEnv) (datos : DatosArqueo)
    (r : OperationResultM) : DupCheck :=
  if !env.dupUiOk then
    ⟨{ r with status := .FAILED, error := some "Failed to open Consulta window".toList },
     none⟩
  else if datos.aplicaciones = [] then
    ⟨{ r with status := .FAILED, error := some "Total aplicaciones calculado == 0".toList },
     none⟩
  else
    match sumImportes datos.aplicaciones with
    | none =>
      ⟨{ r with status := .FAILED, error := some "Duplicate check error: bad importe".toList },
       none⟩
    | some total =>
      match env.dupOutcome with
      | .noRecords =>
        ⟨{ r with similiar_records_encountered := 0 }, some total⟩
      | .found countField =>
        match countField with
        | none =>
          ⟨{ r with similiar_records_encountered := 1,
                    status := .P_DUPLICATED,
                    error := some (dupFoundMsg 1) },
           some total⟩
        | some v =>
          if v ≠ [] then
            match parseInt v with
            | some n =>
              ⟨{ r with similiar_records_encountered := n,
                        status := .P_DUPLICATED,
                        error := some (dupFoundMsg n) },
               some total⟩
            | none =>
              ⟨{ r with status := .FAILED,
                        error := some "Duplicate check error: bad counter".toList },
               some total⟩
          else
            ⟨{ r with similiar_records_encountered := 0,
                      status := .P_DUPLICATED,
                      error := some (dupFoundMsg 0) },
             some total⟩

/-- Embedding of `validate_operation` (arqueo_tasks.py lines 889-903):
on success the assigned operation number is read back into
`num_operacion` (status untouched); any exception yields `FAILED` with a
`Validation error:` message. -/
def validate_operation (env : LegacyEnv) (r : OperationResultM) : OperationResultM :=
  match env.validateRes with
  | .ok num => { r with num_operacion := some num }
  | .error msg =>
    { r with status := .FAILED, error := some ("Validation error: ".toList ++ msg) }

/-- Embedding of `print_operation_document` (arqueo_tasks.py lines
905-931): on success the status is set to `COMPLETED`; any exception
yields `INCOMPLETED` with a `Print document error:` message. -/
def print_operation_document (env : LegacyEnv) (r : OperationResultM) : OperationResultM :=
  match env.printRes with
  | .ok _ => { r with status := .COMPLETED }
  | .error msg =>
    { r with status := .INCOMPLETED, error := some ("Print document error: ".toList ++ msg) }

/-- Embedding of `process_arqueo_operation` (arqueo_tasks.py lines
610-656): fill, then `COMPLETED` unless the fill failed, then — only when
the finalize flag is set and the status is `COMPLETED` — validate and, if
still `COMPLETED`, print. -/
def process_arqueo_operation (env : LegacyEnv) (datos : DatosArqueo)
    (r : OperationResultM) : List FillAction × OperationResultM :=
  let filled := fill_main_panel_data env.displayedTotal datos r
  let r1 := filled.2
  let r2 := if r1.status ≠ .FAILED then { r1 with status := .COMPLETED } else r1
  if r2.status = .COMPLETED ∧ datos.finalizar_operacion then
    let r3 := validate_operation env r2
    if r3.status = .COMPLETED then (filled.1, print_operation_document env r3)
    else (filled.1, r3)
  else (filled.1, r2)

/-- The `{tipo, detalle}` payload handed to `operacion_arqueo`. -/
structure OperationData where
  tipo : List Char := "arqueo".toList
  detalle : RawDetalle := {}
  deriving Repr

/-- Full outcome of one `operacion_arqueo` run: the final result, whether
the `Consultar` duplicate query ran (and with which total), whether the
arqueo window was ever requested (`setup_sical_window` called), and the
fill-phase action trace. -/
structure OrchOutcome where
  result : OperationResultM
  dupQueried : Option Rat
  sicalOpenAttempted : Bool
  fillActions : List FillAction
  deriving Repr

/-- Embedding of `operacion_arqueo` (arqueo_tasks.py lines 400-498).
The result starts at `PENDING` with `sical_is_open=False`; when the
transformed record carries the finalize flag, `_check_for_duplicates`
runs *before* any attempt to open the arqueo window, and a `P_DUPLICATED`
or `FAILED` outcome returns immediately (lines 439-452) — so the session
is never opened on that path; otherwise the status is reset to `PENDING`,
the window is opened (failure: `FAILED`), and
`process_arqueo_operation` runs with status `IN_PROGRESS`. -/
def operacion_arqueo (env : LegacyEnv) (operation_data : OperationData) : OrchOutcome :=
  let r0 : OperationResultM := { status := .PENDING, sical_is_open := false }
  let datos := create_arqueo_data operation_data.detalle
  let afterDup : DupCheck :=
    if datos.finalizar_operacion then check_for_duplicates env datos r0
    else ⟨r0, none⟩
  if afterDup.result.status = .P_DUPLICATED then
    ⟨afterDup.result, afterDup.queriedTotal, false, []⟩
  else if afterDup.result.status = .FAILED then
    ⟨afterDup.result, afterDup.queriedTotal, false, []⟩
  else
    let r1 := { afterDup.result with status := OperationStatus.PENDING }
    if !env.sicalOpens then
      ⟨{ r1 with status := .FAILED, error := some "Failed to open SICAL window".toList },
       afterDup.queriedTotal, true, []⟩
    else
      let r2 := { r1 with sical_is_open := true, status := OperationStatus.IN_PROGRESS }
      let processed := process_arqueo_operation env datos r2
      ⟨processed.2, afterDup.queriedTotal, true, processed.1⟩

/-- A successfully parsed-and-extracted inbound message: `task_id` plus
the `operation_data.operation` payload the consumer passes to the
orchestrator (`arqueo_task_consumer.py` lines 84-163). -/
structure InboundMsg where
  taskId : List Char
  operation : OperationData
  deriving Repr

/-- The `{status, operation_id, result}` response the consumer publishes
to the fixed `sical_results` queue (arqueo_task_consumer.py lines
167-182). -/
structure PublishedResponse where
  status : OperationStatus
  operation_id : List Char
  result : OperationResultM
  deriving Repr

/-- Observable effect of one `ArqueoConsumer.callback` invocation. -/
structure ConsumerOutcome where
  acked : Bool
  nacked : Bool
  published : Option PublishedResponse
  deriving Repr

/-- Embedding of `ArqueoConsumer.callback` (arqueo_task_consumer.py lines
74-205).  `parsed` is the outcome of `json.loads` plus the
`data['operation_data']['operation']` extraction (`none` models any
exception raised there); `run` is the orchestrator invocation, fallible to
model an exception escaping it.  On any exception the message is
negatively acknowledged and nothing is published (lines 198-201); on
success the response is published to `sical_results` and the message is
acknowledged (lines 174-186) — regardless of the business status carried
by the result. -/
def consumer_callback (parsed : Option InboundMsg)
    (run : OperationData → Except (List Char) OperationResultM) : ConsumerOutcome :=
  match parsed with
  | none => ⟨false, true, none⟩
  | some m =>
    match run m.operation with
    | .error _ => ⟨false, true, none⟩
    | .ok r => ⟨true, false, some ⟨r.status, m.taskId, r⟩⟩

/-- Count of line items of the trace that were committed (the check-button
click, `path:"3|2|4"`, arqueo_tasks.py lines 810 and 859). -/
def commitCount (acts : List FillAction) : Nat :=
  acts.countP fun x => x matches FillAction.commit

/-- Specification-side count of the line items with strictly positive
amount (the items the spec says are entered). -/
def posCount : List Aplicacion → Nat
  | [] => 0
  | a :: rest =>
    (if (parseDecimal (commaToDot a.importe)).getD 0 > 0 then 1 else 0) + posCount rest

/-- Specification-side sum of the strictly positive line-item amounts. -/
def posSum : List Aplicacion → Rat
  | [] => 0
  | a :: rest =>
    (if (parseDecimal (commaToDot a.importe)).getD 0 > 0
     then (parseDecimal (commaToDot a.importe)).getD 0 else 0) + posSum rest

/-- The linked-reference coercion exactly as the specification words it:
booleans and integers pass through unchanged, floats convert to
`int(value)` by truncation, any other type converts to `bool(value)`. -/
def contraidoSpec : PyVal → PyVal
  | .pyBool b => .pyBool b
  | .pyInt n => .pyInt n
  | .pyFloat q => .pyInt (truncRat q)
  | v => .pyBool v.truthy

/-- Convenience constructor for a transformed line item with the fields
the claims do not exercise left at their post-transform defaults. -/
def mkItem (partida importe : String) (contraido : PyVal) : Aplicacion :=
  { partida := partida.toList, importe := importe.toList, contraido := contraido,
    proyecto := .pyBool false, year := [], cuenta := cuentaFor partida.toList,
    otro := false, base_imponible := .pyFloat 0, tipo := .pyFloat 0, cuenta_pgp := [] }

/-- A concrete raw `detalle` payload whose description carries the
finalize marker and whose single line item has a positive amount. -/
def sampleDetalle : RawDetalle :=
  { fecha := .pyStr "08112024".toList, caja := .pyStr "204".toList,
    expediente := none, tercero := .pyStr "43000000M".toList,
    naturaleza := some (.pyStr "5".toList),
    texto_sical := [some "PAGO_FIN".toList],
    aplicaciones := [{ economica := some (.pyStr "30012".toList),
                       importe := some (.pyStr "5000,0".toList),
                       contraido := some (.pyBool true) }] }

/-- An association list whose keys all differ from `s` looks `s` up to
`none`. -/
theorem lookup_eq_none_of_forall {β : Type} (l : List (List Char × β)) (s : List Char)
    (h : ∀ p ∈ l, p.1 ≠ s) : l.lookup s = none := by
  rw [List.lookup_eq_none_iff]
  intro p hp
  simp only [bne_iff_ne, ne_eq]
  intro he
  exact h p hp he.symm

/-- In the nature-4 branch the check-button commit happens exactly when
the linked reference is falsy. -/
theorem commitCount_item_n4 (a : Aplicacion) :
    commitCount (fillItemActions (.pyStr "4".toList) a)
      = if a.contraido.truthy then 0 else 1 := by
  cases h : a.contraido.truthy <;>
    simp [fillItemActions, commitCount, pyEqStr, h, List.countP_cons, List.countP_append]

/-- In the nature-5 branch every positive item is committed exactly once,
whatever the linked reference holds. -/
theorem commitCount_item_n5 (a : Aplicacion) :
    commitCount (fillItemActions (.pyStr "5".toList) a) = 1 := by
  cases h : a.contraido.truthy
  · simp [fillItemActions, commitCount, pyEqStr, h, List.countP_cons, List.countP_append]
  · cases hc : pyEqTrue (clean_value a.contraido) <;>
      simp [fillItemActions, commitCount, pyEqStr, h, hc, List.countP_cons, List.countP_append]

/-- Claim C1, counterexample: under nature `"4"` with two positive line
items (amounts `1,5` and `2,5`, falsy linked references) the fill loop
commits *both* items and accumulates *both* amounts
(`line_items_sum = 4`), refuting the claimed stop-after-the-first-item
behaviour, which would give one commit and a sum of `1,5`. -/
theorem C1_counterexample :
    ((fillLoop (.pyStr "4".toList)
        [mkItem "130" "1,5" (.pyBool false), mkItem "300" "2,5" (.pyBool false)]).map
      (fun p => (commitCount p.1, p.2)) = some (2, mkRat 4 1)) ∧
    ((fillLoop (.pyStr "4".toList)
        [mkItem "130" "1,5" (.pyBool false), mkItem "300" "2,5" (.pyBool false)]).map
      (fun p => (commitCount p.1, p.2)) ≠ some (1, mkRat 3 2)) := by
  decide

/-- Claim C1 (amended): in the fill phase, for line items with falsy
linked references and parseable amounts, *every* strictly positive item is
entered, committed and accumulated into `line_items_sum` — there is no
stop after the first entered item; natures `"4"` and `"5"` behave
identically in this respect: the number of committed items is the number
of positive items and the accumulated sum is the sum of the positive
amounts. -/
theorem C1_amended (items : List Aplicacion) :
    (∀ a ∈ items, (parseDecimal (commaToDot a.importe)).isSome) →
    (∀ a ∈ items, a.contraido.truthy = false) →
    ((fillLoop (.pyStr "4".toList) items).map (fun p => (commitCount p.1, p.2))
        = some (posCount items, posSum items)) ∧
    ((fillLoop (.pyStr "5".toList) items).map (fun p => (commitCount p.1, p.2))
        = some (posCount items, posSum items)) := by
  induction items with
  | nil => intro _ _; exact ⟨rfl, rfl⟩
  | cons a rest ih =>
    intro hp hc
    obtain ⟨v, hv⟩ := Option.isSome_iff_exists.mp (hp a (List.mem_cons_self a rest))
    have hca : a.contraido.truthy = false := hc a (List.mem_cons_self a rest)
    have ihr := ih (fun x hx => hp x (List.mem_cons_of_mem a hx))
                   (fun x hx => hc x (List.mem_cons_of_mem a hx))
    obtain ⟨p4, hp4, hf4⟩ := Option.map_eq_some'.mp ihr.1
    obtain ⟨p5, hp5, hf5⟩ := Option.map_eq_some'.mp ihr.2
    have hc4 : commitCount p4.1 = posCount rest := congrArg Prod.fst hf4
    have hs4 : p4.2 = posSum rest := congrArg Prod.snd hf4
    have hc5 : commitCount p5.1 = posCount rest := congrArg Prod.fst hf5
    have hs5 : p5.2 = posSum rest := congrArg Prod.snd hf5
    constructor
    · by_cases h0 : v > 0
      · simp only [fillLoop, hv, hp4, if_pos h0, Option.map_some']
        rw [posCount, posSum, hv]
        simp only [Option.getD_some, if_pos h0, commitCount, List.countP_append]
        rw [← commitCount, ← commitCount, commitCount_item_n4, hca, hc4, hs4]
        simp [itemSum, pyEqStr, hca]
      · simp only [fillLoop, hv, hp4, if_neg h0, Option.map_some']
        rw [posCount, posSum, hv]
        simp only [Option.getD_some, if_neg h0]
        rw [hc4, hs4]
        simp
    · by_cases h0 : v > 0
      · simp only [fillLoop, hv, hp5, if_pos h0, Option.map_some']
        rw [posCount, posSum, hv]
        simp only [Option.getD_some, if_pos h0, commitCount, List.countP_append]
        rw [← commitCount, ← commitCount, commitCount_item_n5, hc5, hs5]
        simp [itemSum, pyEqStr]
      · simp only [fillLoop, hv, hp5, if_neg h0, Option.map_some']
        rw [posCount, posSum, hv]
        simp only [Option.getD_some, if_neg h0]
        rw [hc5, hs5]
        simp

/-- Claim C1, witness for the amended theorem: the general statement
instantiated at two concrete positive line items with falsy linked
references, under both natures. -/
theorem C1_witness :
    ((fillLoop (.pyStr "4".toList)
        [mkItem "130" "1,5" (.pyBool false), mkItem "300" "2,5" (.pyBool false)]).map
      (fun p => (commitCount p.1, p.2))
      = some (posCount [mkItem "130" "1,5" (.pyBool false), mkItem "300" "2,5" (.pyBool false)],
              posSum [mkItem "130" "1,5" (.pyBool false), mkItem "300" "2,5" (.pyBool false)])) ∧
    ((fillLoop (.pyStr "5".toList)
        [mkItem "130" "1,5" (.pyBool false), mkItem "300" "2,5" (.pyBool false)]).map
      (fun p => (commitCount p.1, p.2))
      = some (posCount [mkItem "130" "1,5" (.pyBool false), mkItem "300" "2,5" (.pyBool false)],
              posSum [mkItem "130" "1,5" (.pyBool false), mkItem "300" "2,5" (.pyBool false)])) :=
  C1_amended _ (by decide) (by decide)

/-- Claim C2, counterexample: a record whose single line item has amount
`-5` has a strictly-positive-amount sum of zero, yet the duplicate
detector does not fail — it issues the query, with the sum of *all*
amounts (`-5`) as the filter total. -/
theorem C2_counterexample :
    ((check_for_duplicates {}
        { fecha := .pyStr "08112024".toList, caja := .pyStr "204".toList,
          expediente := .pyStr "rbt-apunte-arqueo".toList,
          tercero := .pyStr "43000000M".toList, naturaleza := .pyStr "4".toList,
          resumen := [], finalizar_operacion := true,
          aplicaciones := [mkItem "999" "-5" (.pyBool false)] }
        { status := .PENDING }).queriedTotal = some (mkRat (-5) 1)) ∧
    ((check_for_duplicates {}
        { fecha := .pyStr "08112024".toList, caja := .pyStr "204".toList,
          expediente := .pyStr "rbt-apunte-arqueo".toList,
          tercero := .pyStr "43000000M".toList, naturaleza := .pyStr "4".toList,
          resumen := [], finalizar_operacion := true,
          aplicaciones := [mkItem "999" "-5" (.pyBool false)] }
        { status := .PENDING }).result.status ≠ .FAILED) ∧
    posSum [mkItem "999" "-5" (.pyBool false)] = 0 := by
  decide

/-- Claim C2 (amended): the duplicate detector computes the expected
total as the sum of *all* line-item amounts (not only the positive ones),
and it terminates immediately with a `FAILED` outcome without issuing any
query exactly when the line-item list is empty; whenever the list is
non-empty and the amounts parse, the query is issued with that total
(even when the total is zero or negative). -/
theorem C2_amended (env : LegacyEnv) (datos : DatosArqueo) (r : OperationResultM)
    (hui : env.dupUiOk = true) :
    (datos.aplicaciones = [] →
      (check_for_duplicates env datos r).result.status = .FAILED ∧
      (check_for_duplicates env datos r).result.error
          = some "Total aplicaciones calculado == 0".toList ∧
      (check_for_duplicates env datos r).queriedTotal = none) ∧
    (∀ t, datos.aplicaciones ≠ [] → sumImportes datos.aplicaciones = some t →
      (check_for_duplicates env datos r).queriedTotal = some t) := by
  unfold check_for_duplicates
  rw [hui]
  constructor
  · intro he
    simp [he]
  · intro t hne hsum
    simp only [Bool.not_true, Bool.false_eq_true, if_false, if_neg hne, hsum]
    cases env.dupOutcome with
    | noRecords => rfl
    | found cf =>
      cases cf with
      | none => rfl
      | some v =>
        by_cases hv : v = []
        · simp [hv]
        · cases hpv : parseInt v <;> simp [hv, hpv]

/-- Claim C2, witness for the amended theorem: an empty line-item list
fails without querying, and the `-5` item record queries with total
`-5`. -/
theorem C2_witness :
    ((check_for_duplicates {}
        { fecha := .pyNone, caja := .pyNone, expediente := .pyNone, tercero := .pyNone,
          naturaleza := .pyStr "4".toList, resumen := [], finalizar_operacion := true,
          aplicaciones := [] } { status := .PENDING }).result.status = .FAILED) ∧
    ((check_for_duplicates {}
        { fecha := .pyNone, caja := .pyNone, expediente := .pyNone, tercero := .pyNone,
          naturaleza := .pyStr "4".toList, resumen := [], finalizar_operacion := true,
          aplicaciones := [mkItem "999" "-5" (.pyBool false)] }
        { status := .PENDING }).queriedTotal = some (mkRat (-5) 1)) :=
  ⟨((C2_amended {} _ _ rfl).1 rfl).1,
   (C2_amended {} _ _ rfl).2 (mkRat (-5) 1) (by decide) (by decide)⟩

/-- Claim C3 (confirmed): when the transformed record carries the
finalize intent and the duplicate query reports matches, the operation
terminates `P_DUPLICATED` with `similiar_records_encountered` equal to
the reported count (parsed from the records counter) or `1` when the
counter element is absent, and the legacy session is never touched:
`sical_is_open` stays false and `setup_sical_window` is never called. -/
theorem C3_thm (env : LegacyEnv) (od : OperationData) (cf : Option (List Char))
    (hfin : (create_arqueo_data od.detalle).finalizar_operacion = true)
    (hui : env.dupUiOk = true)
    (hne : (create_arqueo_data od.detalle).aplicaciones ≠ [])
    (hsum : (sumImportes (create_arqueo_data od.detalle).aplicaciones).isSome)
    (hout : env.dupOutcome = .found cf) :
    ((operacion_arqueo env od).result.sical_is_open = false ∧
     (operacion_arqueo env od).sicalOpenAttempted = false) ∧
    (cf = none →
      (operacion_arqueo env od).result.status = .P_DUPLICATED ∧
      (operacion_arqueo env od).result.similiar_records_encountered = 1) ∧
    (∀ v n, cf = some v → v ≠ [] → parseInt v = some n →
      (operacion_arqueo env od).result.status = .P_DUPLICATED ∧
      (operacion_arqueo env od).result.similiar_records_encountered = n) := by
  obtain ⟨t, ht⟩ := Option.isSome_iff_exists.mp hsum
  cases cf with
  | none =>
    have hdc : check_for_duplicates env (create_arqueo_data od.detalle)
        { status := .PENDING, sical_is_open := false }
        = ⟨{ status := .P_DUPLICATED, error := some (dupFoundMsg 1),
             similiar_records_encountered := 1 }, some t⟩ := by
      simp only [check_for_duplicates, hui, ht, hout]
      simp [hne]
    simp only [operacion_arqueo, hfin, if_true, hdc]
    simp
  | some v =>
    refine ⟨?_, ?_, ?_⟩
    · by_cases hv : v = []
      · have hdc : check_for_duplicates env (create_arqueo_data od.detalle)
            { status := .PENDING, sical_is_open := false }
            = ⟨{ status := .P_DUPLICATED, error := some (dupFoundMsg 0),
                 similiar_records_encountered := 0 }, some t⟩ := by
          simp only [check_for_duplicates, hui, ht, hout]
          simp [hne, hv]
        simp only [operacion_arqueo, hfin, if_true, hdc]
        simp
      · cases hpv : parseInt v with
        | none =>
          have hdc : check_for_duplicates env (create_arqueo_data od.detalle)
              { status := .PENDING, sical_is_open := false }
              = ⟨{ status := .FAILED,
                   error := some "Duplicate check error: bad counter".toList }, some t⟩ := by
            simp only [check_for_duplicates, hui, ht, hout]
            simp [hne, hv, hpv]
          simp only [operacion_arqueo, hfin, if_true, hdc]
          simp
        | some n =>
          have hdc : check_for_duplicates env (create_arqueo_data od.detalle)
              { status := .PENDING, sical_is_open := false }
              = ⟨{ status := .P_DUPLICATED, error := some (dupFoundMsg n),
                   similiar_records_encountered := n }, some t⟩ := by
            simp only [check_for_duplicates, hui, ht, hout]
            simp [hne, hv, hpv]
          simp only [operacion_arqueo, hfin, if_true, hdc]
          simp
    · intro h
      exact Option.noConfusion h
    · intro w n hw hv hpv
      cases hw
      have hdc : check_for_duplicates env (create_arqueo_data od.detalle)
          { status := .PENDING, sical_is_open := false }
          = ⟨{ status := .P_DUPLICATED, error := some (dupFoundMsg n),
               similiar_records_encountered := n }, some t⟩ := by
        simp only [check_for_duplicates, hui, ht, hout]
        simp [hne, hv, hpv]
      simp only [operacion_arqueo, hfin, if_true, hdc]
      simp

/-- Claim C3, witness: a finalize-flagged record whose duplicate query
reports `3` matching records terminates `P_DUPLICATED` with count `3`,
session untouched. -/
theorem C3_witness :
    ((operacion_arqueo { dupOutcome := .found (some "3".toList) }
        { detalle := sampleDetalle }).result.sical_is_open = false ∧
     (operacion_arqueo { dupOutcome := .found (some "3".toList) }
        { detalle := sampleDetalle }).sicalOpenAttempted = false) ∧
    ((operacion_arqueo { dupOutcome := .found (some "3".toList) }
        { detalle := sampleDetalle }).result.status = .P_DUPLICATED ∧
     (operacion_arqueo { dupOutcome := .found (some "3".toList) }
        { detalle := sampleDetalle }).result.similiar_records_encountered = 3) :=
  have h := C3_thm { dupOutcome := .found (some "3".toList) } { detalle := sampleDetalle }
    (some "3".toList) (by decide) rfl (by decide) (by decide) rfl
  ⟨h.1, h.2.2 "3".toList 3 rfl (by decide) (by decide)⟩

/-- Claim C4 (confirmed): the consumer acknowledges exactly when parsing
and the orchestrator invocation raise no exception; a successfully
returned result is always published (whatever its business status, so in
particular `FAILED`, `P_DUPLICATED` or `INCOMPLETED` results are still
acknowledged and published), while a parse failure or an exception during
the invocation triggers a negative acknowledgment with nothing
published. -/
theorem C4_thm (parsed : Option InboundMsg)
    (run : OperationData → Except (List Char) OperationResultM) :
    ((consumer_callback parsed run).acked = true ↔
      ∃ m r, parsed = some m ∧ run m.operation = .ok r) ∧
    (∀ m r, parsed = some m → run m.operation = .ok r →
      (consumer_callback parsed run).acked = true ∧
      (consumer_callback parsed run).nacked = false ∧
      (consumer_callback parsed run).published = some ⟨r.status, m.taskId, r⟩) ∧
    (parsed = none →
      (consumer_callback parsed run).nacked = true ∧
      (consumer_callback parsed run).published = none) ∧
    (∀ m e, parsed = some m → run m.operation = .error e →
      (consumer_callback parsed run).acked = false ∧
      (consumer_callback parsed run).nacked = true ∧
      (consumer_callback parsed run).published = none) := by
  cases parsed with
  | none => simp [consumer_callback]
  | some m =>
    cases hr : run m.operation with
    | error e =>
      simp only [consumer_callback, hr]
      simp
      constructor
      · intro x hcon
        rw [hr] at hcon
        exact Except.noConfusion hcon
      · intro m1 r hm
        subst hm
        simp [hr]
    | ok r =>
      simp only [consumer_callback, hr]
      simp [hr]
      constructor
      · intro m1 r1 hm hrun
        subst hm
        rw [hr] at hrun
        cases hrun
        exact ⟨rfl, rfl, rfl⟩
      · intro m1 e hm hcon
        subst hm
        rw [hr] at hcon
        exact Except.noConfusion hcon

/-- Claim C4, witness: a parsed message whose orchestrator run returns a
`FAILED` result is still acknowledged and its response published. -/
theorem C4_witness :
    (consumer_callback (some ⟨"t1".toList, {}⟩)
        (fun _ => .ok { status := .FAILED })).acked = true ∧
    (consumer_callback (some ⟨"t1".toList, {}⟩)
        (fun _ => .ok { status := .FAILED })).published
      = some ⟨OperationStatus.FAILED, "t1".toList, { status := .FAILED }⟩ :=
  have h := (C4_thm (some ⟨"t1".toList, {}⟩) (fun _ => .ok { status := .FAILED })).2.1
    ⟨"t1".toList, {}⟩ { status := .FAILED } rfl rfl
  ⟨h.1, h.2.2⟩

/-- Claim C5 (confirmed): with finalize intent, no duplicates, a
successful fill and a successful validate, a failing print yields
terminal `INCOMPLETED` (not `FAILED`), the error field carries the print
error message, and `num_operacion` is already set from the validate
phase. -/
theorem C5_thm (env : LegacyEnv) (od : OperationData) (p : List FillAction × Rat)
    (num msg : List Char)
    (hfin : (create_arqueo_data od.detalle).finalizar_operacion = true)
    (hui : env.dupUiOk = true)
    (hne : (create_arqueo_data od.detalle).aplicaciones ≠ [])
    (hsum : (sumImportes (create_arqueo_data od.detalle).aplicaciones).isSome)
    (hout : env.dupOutcome = .noRecords)
    (hsic : env.sicalOpens = true)
    (hfill : fillLoop (create_arqueo_data od.detalle).naturaleza
        (create_arqueo_data od.detalle).aplicaciones = some p)
    (hval : env.validateRes = .ok num)
    (hprint : env.printRes = .error msg) :
    (operacion_arqueo env od).result.status = .INCOMPLETED ∧
    (operacion_arqueo env od).result.error
        = some ("Print document error: ".toList ++ msg) ∧
    (operacion_arqueo env od).result.num_operacion = some num ∧
    (operacion_arqueo env od).result.sical_is_open = true := by
  obtain ⟨t, ht⟩ := Option.isSome_iff_exists.mp hsum
  have hdc : check_for_duplicates env (create_arqueo_data od.detalle)
      { status := .PENDING, sical_is_open := false }
      = ⟨{ status := .PENDING, sical_is_open := false }, some t⟩ := by
    simp only [check_for_duplicates, hui, ht, hout]
    simp [hne]
  simp only [operacion_arqueo, hfin, if_true, hdc, hsic,
    process_arqueo_operation, fill_main_panel_data, hfill,
    validate_operation, hval, print_operation_document, hprint]
  simp [hfin]

/-- Claim C5, witness: the concrete finalize-flagged record with a
positive line item, validate returning an operation number and a failing
print ends `INCOMPLETED` with the print message and the number set. -/
theorem C5_witness :
    (operacion_arqueo
        { validateRes := .ok "2024.2.1234".toList, printRes := .error "printer offline".toList }
        { detalle := sampleDetalle }).result.status = .INCOMPLETED ∧
    (operacion_arqueo
        { validateRes := .ok "2024.2.1234".toList, printRes := .error "printer offline".toList }
        { detalle := sampleDetalle }).result.error
      = some ("Print document error: ".toList ++ "printer offline".toList) ∧
    (operacion_arqueo
        { validateRes := .ok "2024.2.1234".toList, printRes := .error "printer offline".toList }
        { detalle := sampleDetalle }).result.num_operacion = some "2024.2.1234".toList ∧
    (operacion_arqueo
        { validateRes := .ok "2024.2.1234".toList, printRes := .error "printer offline".toList }
        { detalle := sampleDetalle }).result.sical_is_open = true :=
  C5_thm { validateRes := .ok "2024.2.1234".toList, printRes := .error "printer offline".toList }
    { detalle := sampleDetalle }
    ([FillAction.clickNew, FillAction.enterPartida "30012".toList,
      FillAction.tabToContraido, FillAction.newContraidoKeys, FillAction.skipTabs3,
      FillAction.enterImporte "5000,0".toList, FillAction.pressEnter, FillAction.commit],
     mkRat 5000 1)
    "2024.2.1234".toList "printer offline".toList
    (by decide) rfl (by decide) (by decide) rfl rfl (by decide) rfl rfl

/-- Claim C6, counterexample: on the input `" a_FIN"` the transformer
returns `("a", true)` — the *leading* space is removed as well — and not
`(" a", true)`, which is what removing the suffix and trimming only
trailing whitespace would give. -/
theorem C6_counterexample :
    check_finalize_flag " a_FIN".toList = ("a".toList, true) ∧
    check_finalize_flag " a_FIN".toList ≠ (pyRStrip " a".toList, true) := by
  decide

/-- Claim C6 (amended): a non-empty string ending with the finalize
suffix is returned with exactly that suffix removed and *both leading and
trailing* whitespace trimmed (Python `str.strip()`), paired with
`finalize_intent = true`; any string not ending with the suffix (the
empty string included) is returned unchanged paired with `false`. -/
theorem C6_amended (s pre : List Char) :
    (s = pre ++ FINALIZE_SUFFIX → check_finalize_flag s = (pyStrip pre, true)) ∧
    (¬ FINALIZE_SUFFIX <:+ s → check_finalize_flag s = (s, false)) := by
  constructor
  · rintro rfl
    have hne : pre ++ FINALIZE_SUFFIX ≠ [] := by
      simp [FINALIZE_SUFFIX]
    have hsuf : FINALIZE_SUFFIX <:+ pre ++ FINALIZE_SUFFIX := List.suffix_append pre _
    have hlen : (pre ++ FINALIZE_SUFFIX).length - FINALIZE_SUFFIX.length = pre.length := by
      simp [List.length_append]
    rw [check_finalize_flag, if_pos ⟨hne, hsuf⟩, hlen, List.take_left' rfl]
  · intro hsuf
    rw [check_finalize_flag, if_neg (fun h => hsuf h.2)]

/-- Claim C6, witness: the amended theorem at a suffixed input with inner
trailing whitespace and at a plain input. -/
theorem C6_witness :
    check_finalize_flag ("x ".toList ++ FINALIZE_SUFFIX) = (pyStrip "x ".toList, true) ∧
    check_finalize_flag "abc".toList = ("abc".toList, false) :=
  ⟨(C6_amended _ "x ".toList).1 rfl, (C6_amended "abc".toList []).2 (by decide)⟩

/-- Claim C7 (confirmed): the transformer coerces a present
`contraido` value exactly as the specification describes — booleans and
integers pass through, floats truncate to `int(value)`, anything else
becomes `bool(value)`. -/
theorem C7_thm (r : RawAplicacion) (rest : List RawAplicacion) (c : PyVal)
    (h : r.contraido = some c) :
    ((create_aplicaciones (r :: rest)).head?.map (·.contraido)) = some (contraidoSpec c) := by
  cases c <;> simp [create_aplicaciones, h, contraidoSpec]

/-- Claim C7, witness: a float linked reference `3/2` truncates to the
integer `1` through the transformer. -/
theorem C7_witness :
    ((create_aplicaciones [{ contraido := some (.pyFloat (mkRat 3 2)) }]).head?.map
        (·.contraido)) = some (contraidoSpec (.pyFloat (mkRat 3 2))) ∧
    contraidoSpec (.pyFloat (mkRat 3 2)) = .pyInt 1 :=
  ⟨C7_thm _ [] _ rfl, by decide⟩

/-- Claim C8 (confirmed): the field mapper is total — every code in the
static table maps to the table's value, every other string maps to the
`'000'` sentinel, and the structured entry for `'45002'` exposes both the
ledger code and the secondary code, its first element being the primary
ledger code. -/
theorem C8_thm :
    (∀ p ∈ partidas_cuentaPG, cuentaFor p.1 = p.2) ∧
    (∀ s : List Char, s ∉ partidas_cuentaPG.map Prod.fst →
      cuentaFor s = .single "000".toList) ∧
    cuentaFor "45002".toList = .pair "9411".toList "24000014".toList ∧
    (cuentaFor "45002".toList).primary = "9411".toList := by
  refine ⟨by decide, ?_, by decide, by decide⟩
  intro s hs
  have h : partidas_cuentaPG.lookup s = none := by
    refine lookup_eq_none_of_forall _ _ ?_
    intro p hp he
    exact hs (he ▸ List.mem_map_of_mem Prod.fst hp)
  rw [cuentaFor, h]
  rfl

/-- Claim C8, witness: a mapped code (`130` to `727`) and an unmapped
code (`999` to the sentinel). -/
theorem C8_witness :
    cuentaFor "130".toList = .single "727".toList ∧
    cuentaFor "999".toList = .single "000".toList :=
  ⟨C8_thm.1 ("130".toList, .single "727".toList) (by decide),
   C8_thm.2.1 "999".toList (by decide)⟩

/-- Claim C9 (confirmed): after a fill phase that completes without
exception, `total_operacion` holds the legacy-displayed total read back
as a *string* with commas replaced by dots — never a numeric value,
although the dataclass declares the field as an optional float — while
`suma_aplicaciones` holds the float accumulated from the entered
items. -/
theorem C9_thm (displayed : List Char) (datos : DatosArqueo) (r : OperationResultM)
    (p : List FillAction × Rat)
    (h : fillLoop datos.naturaleza datos.aplicaciones = some p) :
    (fill_main_panel_data displayed datos r).2.total_operacion
        = some (.pyStr (commaToDot displayed)) ∧
    (∀ q : Rat, (fill_main_panel_data displayed datos r).2.total_operacion
        ≠ some (.pyFloat q)) ∧
    (fill_main_panel_data displayed datos r).2.suma_aplicaciones = some (.pyFloat p.2) := by
  unfold fill_main_panel_data
  rw [h]
  exact ⟨rfl, fun q hq => by simp at hq, rfl⟩

/-- Claim C9, witness: with displayed total `"123,45"` the result stores
the string `"123.45"` (and no float), and the accumulated sum `5`. -/
theorem C9_witness :
    (fill_main_panel_data "123,45".toList
        { fecha := .pyNone, caja := .pyNone, expediente := .pyNone, tercero := .pyNone,
          naturaleza := .pyStr "4".toList, resumen := [], finalizar_operacion := false,
          aplicaciones := [mkItem "130" "5,0" (.pyBool false)] }
        { status := .IN_PROGRESS }).2.total_operacion
      = some (.pyStr (commaToDot "123,45".toList)) ∧
    (∀ q : Rat, (fill_main_panel_data "123,45".toList
        { fecha := .pyNone, caja := .pyNone, expediente := .pyNone, tercero := .pyNone,
          naturaleza := .pyStr "4".toList, resumen := [], finalizar_operacion := false,
          aplicaciones := [mkItem "130" "5,0" (.pyBool false)] }
        { status := .IN_PROGRESS }).2.total_operacion ≠ some (.pyFloat q)) ∧
    (fill_main_panel_data "123,45".toList
        { fecha := .pyNone, caja := .pyNone, expediente := .pyNone, tercero := .pyNone,
          naturaleza := .pyStr "4".toList, resumen := [], finalizar_operacion := false,
          aplicaciones := [mkItem "130" "5,0" (.pyBool false)] }
        { status := .IN_PROGRESS }).2.suma_aplicaciones
      = some (.pyFloat ([FillAction.clickNew, FillAction.enterPartida "130".toList,
          FillAction.skipTabs3, FillAction.enterImporte "5,0".toList, FillAction.pressEnter,
          FillAction.commit], mkRat 5 1).2) :=
  C9_thm "123,45".toList _ _ _ (by decide)

/-- Claim C10, counterexample: in the nature-5 branch with linked
reference `"ABC"`, the fill phase types the *raw* value `"ABC"` — not the
lowercased `"abc"` the claim says `clean_value` would make it type. -/
theorem C10_counterexample :
    (FillAction.typeContraido (.pyStr "ABC".toList)
        ∈ ((fillLoop (.pyStr "5".toList) [mkItem "130" "1,0" (.pyStr "ABC".toList)]).getD
            ([], 0)).1) ∧
    (FillAction.typeContraido (.pyStr "abc".toList)
        ∉ ((fillLoop (.pyStr "5".toList) [mkItem "130" "1,0" (.pyStr "ABC".toList)]).getD
            ([], 0)).1) := by
  decide

/-- Claim C10 (amended): in the nature-5 branch with a truthy linked
reference, `clean_value` decides the branch only: the new-reference keyed
sequence is taken exactly when `clean_value` of the reference equals
`True` — which for strings happens exactly when the lowercased string is
`"true"`, and never for integers, which `clean_value` normalizes to their
decimal string — while in the other case the *raw* reference value is
typed, with no lowercasing or stringification applied to what is
typed. -/
theorem C10_amended (a : Aplicacion) (htruthy : a.contraido.truthy = true) :
    (pyEqTrue (clean_value a.contraido) = true →
      FillAction.newContraidoKeys ∈ fillItemActions (.pyStr "5".toList) a ∧
      ∀ w, FillAction.typeContraido w ∉ fillItemActions (.pyStr "5".toList) a) ∧
    (pyEqTrue (clean_value a.contraido) = false →
      FillAction.typeContraido a.contraido ∈ fillItemActions (.pyStr "5".toList) a ∧
      FillAction.newContraidoKeys ∉ fillItemActions (.pyStr "5".toList) a) ∧
    (∀ s, pyEqTrue (clean_value (.pyStr s)) = true ↔ pyLower s = "true".toList) ∧
    (∀ n : Int, clean_value (.pyInt n) = .pyStr (intRepr n) ∧
      pyEqTrue (clean_value (.pyInt n)) = false) := by
  refine ⟨?_, ?_, ?_, fun n => ⟨rfl, rfl⟩⟩
  · intro hct
    constructor
    · simp [fillItemActions, pyEqStr, htruthy, hct]
    · intro w
      simp [fillItemActions, pyEqStr, htruthy, hct]
  · intro hct
    constructor
    · simp [fillItemActions, pyEqStr, htruthy, hct]
    · simp [fillItemActions, pyEqStr, htruthy, hct]
  · intro s
    by_cases hf : pyLower s = ['f', 'a', 'l', 's', 'e']
    · have hft : pyLower s ≠ ['t', 'r', 'u', 'e'] := by rw [hf]; decide
      simp [clean_value, hf, hft, pyEqTrue]
    · by_cases ht : pyLower s = ['t', 'r', 'u', 'e']
      · simp [clean_value, hf, ht, pyEqTrue]
      · simp [clean_value, hf, ht, pyEqTrue]

/-- Claim C10, witness: a boolean-true-like string reference `"True"`
takes the new-reference keyed sequence, while the reference `"ABC"` is
typed raw. -/
theorem C10_witness :
    (FillAction.newContraidoKeys
        ∈ fillItemActions (.pyStr "5".toList) (mkItem "130" "1,0" (.pyStr "True".toList)) ∧
      ∀ w, FillAction.typeContraido w
        ∉ fillItemActions (.pyStr "5".toList) (mkItem "130" "1,0" (.pyStr "True".toList))) ∧
    (FillAction.typeContraido (mkItem "130" "1,0" (.pyStr "ABC".toList)).contraido
        ∈ fillItemActions (.pyStr "5".toList) (mkItem "130" "1,0" (.pyStr "ABC".toList)) ∧
      FillAction.newContraidoKeys
        ∉ fillItemActions (.pyStr "5".toList) (mkItem "130" "1,0" (.pyStr "ABC".toList))) :=
  ⟨(C10_amended _ (by decide)).1 (by decide),
   (C10_amended _ (by decide)).2.1 (by decide)⟩
